import Mathlib

/-!
Verification of the simsig signal-management library (src/simsig/simsig.py)
against its natural-language specification.

The embedding below translates the Python module into Lean. The process-wide
OS facilities that the module drives (the signal disposition table written by
signal.signal and read by signal.getsignal, the alarm countdown set by
signal.alarm, and the blocked-signal mask manipulated by
signal.pthread_sigmask) are modelled as explicit state. Python exceptions are
modelled with Except; a raised exception carries the state at the moment of
the raise, because earlier statements of an aborted batch have already
mutated the state.

Conventions of the model:
  - Signal numbers are the Linux numbers; the platform capability table
    (the dynamically built Signals enum) is the list platformSignals.
    The model collapses the two validity checks of CPython (the range test
    inside signal.signal / signal.getsignal and membership in the Signals
    enum) into the single predicate validSig, which agree on every signal
    the claims touch.
  - Handler values are the inductive Handler. Handler.pyNone is the Python
    None that signal.getsignal reports for a disposition that was not
    installed from Python; Handler.sigDfl and Handler.sigIgn are the two
    sentinel dispositions; Handler.cb is an arbitrary user callback
    identified by a number; Handler.fin is the cached termination handler
    (tagged by the creation counter at the moment it was built, so that two
    distinct creations would be distinguishable values); Handler.chained is
    the closure built by chain_handler; Handler.timeoutH is the closure
    built by with_timeout.
  - User callbacks are modelled as returning normally; delivering a signal
    to a handler (runHandler) yields the list of callback identifiers that
    were invoked, in invocation order, together with the control-flow
    outcome (normal return, process exit via sys.exit, or a raised
    exception).
  - The protected block of a context manager is modelled by its observable
    behaviour: it either completes normally or raises an exception, and for
    with_timeout it additionally has a running time in seconds.
-/

/-- Python exception classes that the module can raise or catch. -/
inductive PyErr where
  | valueError
  | osError
  | typeError
  | notImplementedError
  | simSigTimeout
  | userError (n : Nat)
deriving DecidableEq, Repr

/-- Control-flow outcome of invoking a signal handler. -/
inductive Outcome where
  | normal
  | exited (code : Nat)
  | raised (e : PyErr)
deriving DecidableEq, Repr

/-- Installable handler values, mirroring what signal.getsignal can report
and what the module installs. -/
inductive Handler where
  | pyNone
  | sigDfl
  | sigIgn
  | fin (tag : Nat)
  | cb (id : Nat)
  | chained (order : String) (cbId : Nat) (original : Handler)
  | timeoutH (seconds : Nat)
deriving DecidableEq, Repr

/-- Python callable(x) on the handler values of the model: the None object
and the two sentinel dispositions are not callable, everything else is. -/
def callable : Handler → Bool
  | Handler.pyNone => false
  | Handler.sigDfl => false
  | Handler.sigIgn => false
  | _ => true

/-- The SigReaction enum of the module. -/
inductive SigReaction where
  | dflt
  | ign
  | fin
deriving DecidableEq, Repr

/-- The reaction parameter of set_handler: a SigReaction member or an
arbitrary Python object (checked with callable at run time). -/
inductive Reaction where
  | tag (t : SigReaction)
  | obj (h : Handler)
deriving DecidableEq, Repr

/-- A signal designator as the module receives it: a Signals enum member
(carrying its numeric value), a plain integer, or a string. -/
inductive SigDesignator where
  | sigEnum (n : Nat)
  | sigInt (n : Nat)
  | sigStr (s : String)
deriving DecidableEq, Repr

/-- The signals argument of the batch operations: a single designator or a
list of designators (Python list or tuple). -/
inductive SigArg where
  | single (d : SigDesignator)
  | list (ds : List SigDesignator)
deriving DecidableEq, Repr

/-- Behaviour of a protected block: it completes normally or raises. -/
inductive BlockBehavior where
  | normal
  | raises (e : PyErr)
deriving DecidableEq, Repr

/-- A protected block for with_timeout: its running time in seconds and the
behaviour it has when it is allowed to finish. -/
structure TimedBlock where
  duration : Nat
  behavior : BlockBehavior
deriving DecidableEq, Repr

/-- Linux signal numbers available in the dynamically built Signals enum. -/
def platformSignals : List Nat :=
  [1, 2, 3, 4, 5, 6, 7, 8, 9, 10, 11, 12, 13, 14, 15, 16, 17, 18, 19, 20,
   21, 22, 23, 24, 25, 26, 27, 28, 29, 30, 31, 34, 64]

/-- Whether a number is a recognized platform signal. -/
def validSig (n : Nat) : Bool := platformSignals.contains n

/-- Whether the OS accepts installing a disposition for this signal.
SIGKILL (9) and SIGSTOP (19) cannot be caught. -/
def catchable (n : Nat) : Bool :=
  if n = 9 then false else if n = 19 then false else true

/-- signal.SIGALRM on Linux. -/
def SIGALRM : Nat := 14

/-- Process-wide OS state driven by the module: the per-signal disposition
table, the blocked-signal mask, and the pending alarm countdown. -/
structure OSState where
  disp : Nat → Handler
  blocked : Nat → Bool
  alarm : Nat

/-- State of a SimSig instance together with the OS state it manipulates.
finCreations counts how many times the creation branch of
_create_fin_handler has executed, so that the lazy-singleton claims are
observable in the model. -/
structure SimSigState where
  os : OSState
  graceful : Option Nat
  finHandler : Option Handler
  finCreations : Nat

/-- A fresh Python process with a fresh SimSig instance: every disposition
reported as SIG_DFL, nothing blocked, no alarm pending, no shutdown
callback, no cached fin handler. -/
def initState : SimSigState :=
  { os := { disp := fun _ => Handler.sigDfl, blocked := fun _ => false, alarm := 0 },
    graceful := none, finHandler := none, finCreations := 0 }

/-- signal.signal(n, h): rejects an out-of-range signal with ValueError,
a non-callable non-sentinel handler (None in this model) with TypeError,
and an uncatchable signal with OSError; otherwise installs h. -/
def sigSignal (os : OSState) (n : Nat) (h : Handler) : Except PyErr OSState :=
  if ¬ validSig n then Except.error PyErr.valueError
  else if h = Handler.pyNone then Except.error PyErr.typeError
  else if ¬ catchable n then Except.error PyErr.osError
  else Except.ok { os with disp := fun m => if m = n then h else os.disp m }

/-- signal.getsignal(n): ValueError for an out-of-range signal, otherwise
the current disposition. -/
def getsignal (os : OSState) (n : Nat) : Except PyErr Handler :=
  if validSig n then Except.ok (os.disp n) else Except.error PyErr.valueError

/-- signal.pthread_sigmask(SIG_BLOCK, l): adds l to the blocked set. -/
def sigmaskBlock (os : OSState) (l : List Nat) : OSState :=
  { os with blocked := fun n => os.blocked n || l.contains n }

/-- signal.pthread_sigmask(SIG_UNBLOCK, l): removes l from the blocked set. -/
def sigmaskUnblock (os : OSState) (l : List Nat) : OSState :=
  { os with blocked := fun n => os.blocked n && ! l.contains n }

/-- Python int() on a string: succeeds only on a decimal numeral, a
nonempty string of digits; a symbolic signal name contains letters, so the
conversion fails. Implemented over the character list so the model is
executable in the kernel. -/
def strToNat? (s : String) : Option Nat :=
  if s.data ≠ [] ∧ s.data.all Char.isDigit then
    some (s.data.foldl (fun n c => 10 * n + (c.toNat - 48)) 0)
  else none

/-- Python int(x) applied to a signal designator: an enum member or an
integer yields its value; a string only converts if it is a numeral, so a
symbolic name such as SIGTERM raises ValueError. -/
def pyIntOf : SigDesignator → Except PyErr Nat
  | SigDesignator.sigEnum n => Except.ok n
  | SigDesignator.sigInt n => Except.ok n
  | SigDesignator.sigStr s =>
      match strToNat? s with
      | some n => Except.ok n
      | none => Except.error PyErr.valueError

/-- The list comprehension int(s) for s in signals, left to right, first
failure raising. -/
def intsOf : List SigDesignator → Except PyErr (List Nat)
  | [] => Except.ok []
  | d :: rest =>
      match pyIntOf d with
      | Except.error e => Except.error e
      | Except.ok n =>
          match intsOf rest with
          | Except.error e => Except.error e
          | Except.ok ns => Except.ok (n :: ns)

/-- SimSig._normalize_signals: a non-list argument becomes the one-element
list of its int value; a list maps int over its elements. -/
def normalize_signals : SigArg → Except PyErr (List Nat)
  | SigArg.single d =>
      match pyIntOf d with
      | Except.error e => Except.error e
      | Except.ok n => Except.ok [n]
  | SigArg.list ds => intsOf ds

/-- SimSig.get_signal_setting: signal.getsignal(int(sig)). -/
def get_signal_setting (os : OSState) (sig : SigDesignator) : Except PyErr Handler :=
  match pyIntOf sig with
  | Except.error e => Except.error e
  | Except.ok n => getsignal os n

/-- SimSig._create_fin_handler: returns the cached handler if present,
otherwise creates one (tagged with the current creation count), caches it
and bumps the creation count. -/
def createFinHandler (st : SimSigState) : Handler × SimSigState :=
  match st.finHandler with
  | some h => (h, st)
  | none =>
      (Handler.fin st.finCreations,
       { st with finHandler := some (Handler.fin st.finCreations),
                 finCreations := st.finCreations + 1 })

/-- The per-signal installation loop of SimSig.set_handler. For each signal
the source first evaluates Signals(sig).name, which raises ValueError for a
number outside the platform table and is not inside the try block; then it
calls signal.signal inside try, catching ValueError and OSError and
continuing with the rest of the batch. -/
def setLoop (h : Handler) : SimSigState → List Nat → Except (PyErr × SimSigState) SimSigState
  | st, [] => Except.ok st
  | st, sig :: rest =>
      if validSig sig then
        match sigSignal st.os sig h with
        | Except.ok os2 => setLoop h { st with os := os2 } rest
        | Except.error e =>
            if e = PyErr.valueError ∨ e = PyErr.osError then setLoop h st rest
            else Except.error (e, st)
      else Except.error (PyErr.valueError, st)

/-- SimSig.set_handler: normalize the signals, resolve the reaction, then
install per signal. For a SigReaction the source builds the whole
reaction_map dict literal, so _create_fin_handler() is evaluated for every
tagged reaction, not only for fin. A reaction that is neither a SigReaction
nor callable raises TypeError. -/
def set_handler (st : SimSigState) (signals : SigArg) (reaction : Reaction) :
    Except (PyErr × SimSigState) SimSigState :=
  match normalize_signals signals with
  | Except.error e => Except.error (e, st)
  | Except.ok sigList =>
      match reaction with
      | Reaction.tag t =>
          match createFinHandler st with
          | (finH, st1) =>
              setLoop
                (match t with
                 | SigReaction.dflt => Handler.sigDfl
                 | SigReaction.ign => Handler.sigIgn
                 | SigReaction.fin => finH)
                st1 sigList
      | Reaction.obj h =>
          if callable h then setLoop h st sigList
          else Except.error (PyErr.typeError, st)

/-- A Python object passed as the callback of graceful_shutdown: an
identity plus whether it is callable. -/
structure PyObj where
  id : Nat
  callable : Bool
deriving DecidableEq, Repr

/-- The terminating-by-default signal numbers of SimSig.__init__ (SIGHUP,
SIGINT, SIGQUIT, SIGILL, SIGABRT, SIGFPE, SIGSEGV, SIGPIPE, SIGALRM,
SIGTERM, SIGXCPU, SIGXFSZ, SIGVTALRM, SIGPROF, SIGUSR1, SIGUSR2). -/
def terminating_by_default : List Nat :=
  [1, 2, 3, 4, 6, 8, 11, 13, 14, 15, 24, 25, 26, 27, 10, 12]

/-- The signals graceful_shutdown installs: the terminating-by-default set
with the name test s.name != SIGKILL applied (SIGKILL is number 9). -/
def gracefulSignals : List Nat :=
  terminating_by_default.filter (fun n => ¬ n = 9)

/-- SimSig.graceful_shutdown: rejects a non-callable with TypeError before
touching any state, stores the callback, then installs the fin reaction for
the terminating-by-default signals (minus SIGKILL by name). -/
def graceful_shutdown (st : SimSigState) (cbk : PyObj) :
    Except (PyErr × SimSigState) SimSigState :=
  if ¬ cbk.callable then Except.error (PyErr.typeError, st)
  else
    set_handler { st with graceful := some cbk.id }
      (SigArg.list (gracefulSignals.map SigDesignator.sigEnum))
      (Reaction.tag SigReaction.fin)

/-- SimSig.chain_handler: rejects a bad order with ValueError before doing
anything else; then reads the current handler with get_signal_setting,
evaluates Signals(sig).name (a further ValueError source for an invalid
number), builds the chained closure capturing the order string, the new
callback and the original handler, and installs it through set_handler. -/
def chain_handler (st : SimSigState) (sig : SigDesignator) (cbId : Nat) (order : String) :
    Except (PyErr × SimSigState) SimSigState :=
  if ¬ (order = ("before") ∨ order = ("after")) then
    Except.error (PyErr.valueError, st)
  else
    match get_signal_setting st.os sig with
    | Except.error e => Except.error (e, st)
    | Except.ok original =>
        match pyIntOf sig with
        | Except.error e => Except.error (e, st)
        | Except.ok n =>
            if validSig n then
              set_handler st (SigArg.single sig)
                (Reaction.obj (Handler.chained order cbId original))
            else Except.error (PyErr.valueError, st)

/-- Delivering a signal numbered n to a handler, in the state st: the list
of callback identifiers invoked in order, and the control-flow outcome.
The fin handler looks the signal up in the Signals enum (ValueError if it
is unknown), invokes the registered shutdown callback if one is set, then
calls sys.exit(128 + signum). The chained closure compares its captured
order string with before and forwards to the captured original only if the
original is callable; an exit or raise from the first part of an after
chain prevents the second part from running. The timeout closure raises
SimSigTimeoutError. Sentinel dispositions are never invoked as Python
callables; their equations are unreachable under the callable guards. -/
def runHandler (st : SimSigState) : Handler → Nat → List Nat × Outcome
  | Handler.pyNone, _ => ([], Outcome.normal)
  | Handler.sigDfl, _ => ([], Outcome.normal)
  | Handler.sigIgn, _ => ([], Outcome.normal)
  | Handler.cb i, _ => ([i], Outcome.normal)
  | Handler.timeoutH _, _ => ([], Outcome.raised PyErr.simSigTimeout)
  | Handler.fin _, n =>
      if validSig n then
        match st.graceful with
        | some c => ([c], Outcome.exited (128 + n))
        | none => ([], Outcome.exited (128 + n))
      else ([], Outcome.raised PyErr.valueError)
  | Handler.chained order c original, n =>
      if order = ("before") then
        if callable original then
          match runHandler st original n with
          | (t, o) => (c :: t, o)
        else ([c], Outcome.normal)
      else
        if callable original then
          match runHandler st original n with
          | (t, Outcome.normal) => (t ++ [c], Outcome.normal)
          | (t, o) => (t, o)
        else ([c], Outcome.normal)

/-- The snapshot dict comprehension of temp_handler, taken over the distinct
signals of the list (a Python dict holds each key once): each signal paired
with its current disposition; ValueError propagates for an invalid number. -/
def snapshotHandlers (os : OSState) : List Nat → Except PyErr (List (Nat × Handler))
  | [] => Except.ok []
  | sig :: rest =>
      match getsignal os sig with
      | Except.error e => Except.error e
      | Except.ok h =>
          match snapshotHandlers os rest with
          | Except.error e => Except.error e
          | Except.ok snap => Except.ok ((sig, h) :: snap)

/-- One restoration attempt of temp_handler: signal.signal(sig, h) with
ValueError and OSError suppressed. The caller only reaches this with
h different from None, so those are the only errors sigSignal can give. -/
def restoreOne (os : OSState) (sig : Nat) (h : Handler) : OSState :=
  match sigSignal os sig h with
  | Except.ok os2 => os2
  | Except.error _ => os

/-- The restoration loop of temp_handler over the snapshot: skips entries
whose snapshot is None, attempts signal.signal for the rest. Also returns
the list of signals for which a restoration call was actually made, so the
restoration-completeness claims are observable. -/
def restoreAll : OSState → List (Nat × Handler) → OSState × List Nat
  | os, [] => (os, [])
  | os, (sig, h) :: rest =>
      if h = Handler.pyNone then restoreAll os rest
      else
        match restoreAll (restoreOne os sig h) rest with
        | (os2, attempts) => (os2, sig :: attempts)

/-- SimSig.temp_handler, instrumented with the list of restoration attempts
it performs on the way out. Normalizes, snapshots the current handlers into
a dict (distinct keys), then inside try installs the reaction through
set_handler and runs the body; the finally block restores every non-None
snapshot entry, suppressing ValueError and OSError. -/
def temp_handler_run (st : SimSigState) (signals : SigArg) (reaction : Reaction)
    (body : BlockBehavior) :
    (Except (PyErr × SimSigState) SimSigState) × List Nat :=
  match normalize_signals signals with
  | Except.error e => (Except.error (e, st), [])
  | Except.ok sigList =>
      match snapshotHandlers st.os sigList.dedup with
      | Except.error e => (Except.error (e, st), [])
      | Except.ok snap =>
          match set_handler st (SigArg.list (sigList.map SigDesignator.sigInt)) reaction with
          | Except.error (e, st1) =>
              match restoreAll st1.os snap with
              | (os2, attempts) => (Except.error (e, { st1 with os := os2 }), attempts)
          | Except.ok st1 =>
              match body with
              | BlockBehavior.normal =>
                  match restoreAll st1.os snap with
                  | (os2, attempts) => (Except.ok { st1 with os := os2 }, attempts)
              | BlockBehavior.raises e =>
                  match restoreAll st1.os snap with
                  | (os2, attempts) => (Except.error (e, { st1 with os := os2 }), attempts)

/-- SimSig.temp_handler proper: the result of the instrumented run. -/
def temp_handler (st : SimSigState) (signals : SigArg) (reaction : Reaction)
    (body : BlockBehavior) : Except (PyErr × SimSigState) SimSigState :=
  (temp_handler_run st signals reaction body).1

/-- SimSig.with_timeout, modelled for a UNIX platform where signal.SIGALRM
exists (the hasattr guard passes). Snapshots the SIGALRM disposition,
installs the timeout closure, arms the alarm; the alarm fires if and only
if it was armed with a nonzero count (signal.alarm(0) cancels) and the
block runs strictly longer than the count, in which case the closure raises
SimSigTimeoutError into the scope. The finally block disarms the alarm and
reinstalls the snapshot with a bare signal.signal call; if that call raises
(the snapshot was None), the exception from the finally block replaces
whatever was propagating. -/
def with_timeout (st : SimSigState) (seconds : Nat) (block : TimedBlock) :
    Except (PyErr × SimSigState) SimSigState :=
  match getsignal st.os SIGALRM with
  | Except.error e => Except.error (e, st)
  | Except.ok original =>
      match sigSignal st.os SIGALRM (Handler.timeoutH seconds) with
      | Except.error e => Except.error (e, st)
      | Except.ok os1 =>
          match
            (if 0 < seconds ∧ seconds < block.duration then
               BlockBehavior.raises PyErr.simSigTimeout
             else block.behavior) with
          | outcome =>
              match sigSignal { os1 with alarm := 0 } SIGALRM original with
              | Except.error e2 =>
                  Except.error (e2,
                    { st with os := { os1 with alarm := 0 } })
              | Except.ok os2 =>
                  match outcome with
                  | BlockBehavior.normal => Except.ok { st with os := os2 }
                  | BlockBehavior.raises e => Except.error (e, { st with os := os2 })

/-- SimSig.block_signals, modelled for a UNIX platform where
signal.pthread_sigmask exists: normalize, block the whole list, run the
body, and on every exit path unblock the whole list. -/
def block_signals (st : SimSigState) (signals : SigArg)
    (body : SimSigState → Except (PyErr × SimSigState) SimSigState) :
    Except (PyErr × SimSigState) SimSigState :=
  match normalize_signals signals with
  | Except.error e => Except.error (e, st)
  | Except.ok sigList =>
      match body { st with os := sigmaskBlock st.os sigList } with
      | Except.ok st2 => Except.ok { st2 with os := sigmaskUnblock st2.os sigList }
      | Except.error (e, st2) =>
          Except.error (e, { st2 with os := sigmaskUnblock st2.os sigList })

/-- The state carried by a result, whether the call returned or raised. -/
def stateOf : Except (PyErr × SimSigState) SimSigState → SimSigState
  | Except.ok s => s
  | Except.error (_, s) => s

/-- The exception carried by a result, if it raised. -/
def pyErrOf : Except (PyErr × SimSigState) SimSigState → Option PyErr
  | Except.ok _ => none
  | Except.error (e, _) => some e

/-- SimSig.has_sig: a string is tested against the enum member names, an
integer against the enum values. -/
def platformSignalNames : List String :=
  [("SIGHUP"), ("SIGINT"), ("SIGQUIT"), ("SIGILL"), ("SIGTRAP"), ("SIGABRT"),
   ("SIGBUS"), ("SIGFPE"), ("SIGKILL"), ("SIGUSR1"), ("SIGSEGV"), ("SIGUSR2"),
   ("SIGPIPE"), ("SIGALRM"), ("SIGTERM"), ("SIGSTKFLT"), ("SIGCHLD"),
   ("SIGCONT"), ("SIGSTOP"), ("SIGTSTP"), ("SIGTTIN"), ("SIGTTOU"),
   ("SIGURG"), ("SIGXCPU"), ("SIGXFSZ"), ("SIGVTALRM"), ("SIGPROF"),
   ("SIGWINCH"), ("SIGIO"), ("SIGPWR"), ("SIGSYS"), ("SIGRTMIN"), ("SIGRTMAX")]

/-- SimSig.has_sig on a string or integer identifier. -/
def has_sig : SigDesignator → Bool
  | SigDesignator.sigStr s => platformSignalNames.contains s
  | SigDesignator.sigInt n => validSig n
  | SigDesignator.sigEnum n => validSig n

deriving instance DecidableEq for Except

/-! ## Helper lemmas about the embedded operations -/

theorem intsOf_map_sigInt : ∀ l : List Nat, intsOf (l.map SigDesignator.sigInt) = Except.ok l := by
  intro l
  induction l with
  | nil => rfl
  | cons a t ih => simp [intsOf, pyIntOf, ih]

theorem normalize_map_sigInt (l : List Nat) :
    normalize_signals (SigArg.list (l.map SigDesignator.sigInt)) = Except.ok l := by
  simp [normalize_signals, intsOf_map_sigInt]

theorem intsOf_map_sigEnum : ∀ l : List Nat, intsOf (l.map SigDesignator.sigEnum) = Except.ok l := by
  intro l
  induction l with
  | nil => rfl
  | cons a t ih => simp [intsOf, pyIntOf, ih]

theorem createFinHandler_some (st : SimSigState) (h : Handler) (hs : st.finHandler = some h) :
    createFinHandler st = (h, st) := by
  simp [createFinHandler, hs]

theorem createFinHandler_os (st : SimSigState) : (createFinHandler st).2.os = st.os := by
  cases hfh : st.finHandler <;> simp [createFinHandler, hfh]

theorem createFinHandler_graceful (st : SimSigState) :
    (createFinHandler st).2.graceful = st.graceful := by
  cases hfh : st.finHandler <;> simp [createFinHandler, hfh]

theorem createFinHandler_caches (st : SimSigState) :
    (createFinHandler st).2.finHandler = some (createFinHandler st).1 := by
  cases hfh : st.finHandler <;> simp [createFinHandler, hfh]

theorem createFinHandler_fresh (st : SimSigState) (h0 : st.finHandler = none) :
    (createFinHandler st).1 = Handler.fin st.finCreations
    ∧ (createFinHandler st).2.finCreations = st.finCreations + 1 := by
  simp [createFinHandler, h0]

/-- The installation loop: when every signal of the batch is in the platform
table and the handler is not None, no exception escapes, each catchable
signal of the batch ends with the new handler installed, every other
disposition is untouched, and the instance fields and the rest of the OS
state are untouched. -/
theorem setLoop_ok (h : Handler) (hne : ¬ h = Handler.pyNone) :
    ∀ (l : List Nat) (st : SimSigState), (∀ s, s ∈ l → validSig s = true) →
    ∃ st2, setLoop h st l = Except.ok st2
      ∧ (∀ s, s ∈ l → catchable s = true → st2.os.disp s = h)
      ∧ (∀ s, ¬ s ∈ l → st2.os.disp s = st.os.disp s)
      ∧ (∀ s, catchable s = false → st2.os.disp s = st.os.disp s)
      ∧ st2.graceful = st.graceful ∧ st2.finHandler = st.finHandler
      ∧ st2.finCreations = st.finCreations
      ∧ st2.os.blocked = st.os.blocked ∧ st2.os.alarm = st.os.alarm := by
  intro l
  induction l with
  | nil =>
      intro st _
      exact ⟨st, rfl, by simp, fun s _ => rfl, fun s _ => rfl, rfl, rfl, rfl, rfl, rfl⟩
  | cons a t ih =>
      intro st hv
      have hva : validSig a = true := hv a (by simp)
      by_cases hca : catchable a = true
      · have hstep :
            setLoop h st (a :: t)
              = setLoop h { st with os := { st.os with
                  disp := fun m => if m = a then h else st.os.disp m } } t := by
          simp [setLoop, hva, sigSignal, hne, hca]
        obtain ⟨st2, heq, h1, h2, h3, hg, hf, hc, hb, hal⟩ :=
          ih { st with os := { st.os with
                  disp := fun m => if m = a then h else st.os.disp m } }
            (fun s hs => hv s (by simp [hs]))
        refine ⟨st2, by rw [hstep, heq], ?_, ?_, ?_, hg, hf, hc, hb, hal⟩
        · intro s hs hcs
          by_cases hst : s ∈ t
          · exact h1 s hst hcs
          · have hsa : s = a := by
              rcases List.mem_cons.mp hs with h | h
              · exact h
              · exact absurd h hst
            have h2s := h2 s hst
            rw [h2s]
            simp [hsa]
        · intro s hs
          have hsa : ¬ s = a := fun hh => hs (by simp [hh])
          have hst : ¬ s ∈ t := fun hh => hs (by simp [hh])
          have h2s := h2 s hst
          rw [h2s]
          simp [hsa]
        · intro s hcs
          have hsa : ¬ s = a := fun hh => by rw [hh] at hcs; rw [hca] at hcs; cases hcs
          have h3s := h3 s hcs
          rw [h3s]
          simp [hsa]
      · have hca2 : catchable a = false := by
          cases hcab : catchable a
          · rfl
          · exact absurd hcab hca
        have hstep : setLoop h st (a :: t) = setLoop h st t := by
          simp [setLoop, hva, sigSignal, hne, hca2]
        obtain ⟨st2, heq, h1, h2, h3, hg, hf, hc, hb, hal⟩ :=
          ih st (fun s hs => hv s (by simp [hs]))
        refine ⟨st2, by rw [hstep, heq], ?_, ?_, h3, hg, hf, hc, hb, hal⟩
        · intro s hs hcs
          have hst : s ∈ t := by
            rcases List.mem_cons.mp hs with h | h
            · exact absurd (h ▸ hcs) (by simp [hca2])
            · exact h
          exact h1 s hst hcs
        · intro s hs
          exact h2 s (fun hh => hs (by simp [hh]))

/-- The installation loop with the None handler on a nonempty valid batch:
TypeError escapes at the first signal and nothing is installed. This is the
unreachable-in-practice case where the cached fin handler slot would hold a
non-callable. -/
theorem setLoop_pyNone (st : SimSigState) (l : List Nat)
    (hv : ∀ s, s ∈ l → validSig s = true) :
    setLoop Handler.pyNone st l = Except.ok st
    ∨ setLoop Handler.pyNone st l = Except.error (PyErr.typeError, st) := by
  cases l with
  | nil => exact Or.inl rfl
  | cons a t =>
      have hva : validSig a = true := hv a (by simp)
      right
      simp [setLoop, hva, sigSignal]

/-- The loop never touches the instance fields, on any path. -/
theorem setLoop_preserves (h : Handler) :
    ∀ (l : List Nat) (st : SimSigState),
      (stateOf (setLoop h st l)).finHandler = st.finHandler
      ∧ (stateOf (setLoop h st l)).finCreations = st.finCreations
      ∧ (stateOf (setLoop h st l)).graceful = st.graceful := by
  intro l
  induction l with
  | nil => intro st; exact ⟨rfl, rfl, rfl⟩
  | cons a t ih =>
      intro st
      by_cases hva : validSig a = true
      · by_cases hne : h = Handler.pyNone
        · subst hne
          simp [setLoop, hva, sigSignal, stateOf]
        · by_cases hca : catchable a = true
          · have : setLoop h st (a :: t)
                = setLoop h { st with os := { st.os with
                    disp := fun m => if m = a then h else st.os.disp m } } t := by
              simp [setLoop, hva, sigSignal, hne, hca]
            rw [this]
            exact ih _
          · have hca2 : catchable a = false := by
              cases hcab : catchable a
              · rfl
              · exact absurd hcab hca
            have : setLoop h st (a :: t) = setLoop h st t := by
              simp [setLoop, hva, sigSignal, hne, hca2]
            rw [this]
            exact ih st
      · have hva2 : validSig a = false := by
          cases hvab : validSig a
          · rfl
          · exact absurd hvab hva
        simp [setLoop, hva2, stateOf]

theorem snapshotHandlers_ok (os : OSState) :
    ∀ l : List Nat, (∀ s, s ∈ l → validSig s = true) →
    snapshotHandlers os l = Except.ok (l.map (fun s => (s, os.disp s))) := by
  intro l
  induction l with
  | nil => intro _; rfl
  | cons a t ih =>
      intro hv
      have hva : validSig a = true := hv a (by simp)
      simp [snapshotHandlers, getsignal, hva, ih (fun s hs => hv s (by simp [hs]))]

theorem restoreOne_disp_ne (os : OSState) (a : Nat) (v : Handler) (s : Nat) (hs : ¬ s = a) :
    (restoreOne os a v).disp s = os.disp s := by
  unfold restoreOne
  cases hsig : sigSignal os a v with
  | error e => rfl
  | ok os2 =>
      unfold sigSignal at hsig
      by_cases hva : validSig a = true
      · simp [hva] at hsig
        by_cases hvn : v = Handler.pyNone
        · simp [hvn] at hsig
        · by_cases hca : catchable a = true
          · simp [hvn, hca] at hsig
            rw [← hsig]
            simp [hs]
          · simp [hvn, hca] at hsig
      · have hva2 : validSig a = false := by
          cases hvab : validSig a
          · rfl
          · exact absurd hvab hva
        simp [hva2] at hsig

theorem restoreOne_not_catchable (os : OSState) (a : Nat) (v : Handler)
    (h : catchable a = false) : restoreOne os a v = os := by
  unfold restoreOne sigSignal
  by_cases hva : validSig a = true
  · by_cases hvn : v = Handler.pyNone
    · simp [hva, hvn]
    · simp [hva, hvn, h]
  · have hva2 : validSig a = false := by
      cases hvab : validSig a
      · rfl
      · exact absurd hvab hva
    simp [hva2]

theorem restoreOne_disp_eq (os : OSState) (a : Nat) (v : Handler)
    (hva : validSig a = true) (hvn : ¬ v = Handler.pyNone) (hca : catchable a = true) :
    (restoreOne os a v).disp a = v := by
  simp [restoreOne, sigSignal, hva, hvn, hca]

theorem restoreOne_blocked (os : OSState) (a : Nat) (v : Handler) :
    (restoreOne os a v).blocked = os.blocked := by
  unfold restoreOne sigSignal
  by_cases hva : validSig a = true
  · by_cases hvn : v = Handler.pyNone
    · simp [hva, hvn]
    · by_cases hca : catchable a = true
      · simp [hva, hvn, hca]
      · simp [hva, hvn, hca]
  · have hva2 : validSig a = false := by
      cases hvab : validSig a
      · rfl
      · exact absurd hvab hva
    simp [hva2]

theorem restoreOne_alarm (os : OSState) (a : Nat) (v : Handler) :
    (restoreOne os a v).alarm = os.alarm := by
  unfold restoreOne sigSignal
  by_cases hva : validSig a = true
  · by_cases hvn : v = Handler.pyNone
    · simp [hva, hvn]
    · by_cases hca : catchable a = true
      · simp [hva, hvn, hca]
      · simp [hva, hvn, hca]
  · have hva2 : validSig a = false := by
      cases hvab : validSig a
      · rfl
      · exact absurd hvab hva
    simp [hva2]

/-- The restoration loop of temp_handler: over a snapshot with distinct
keys, the attempted signals are exactly the keys whose snapshot is not
None; each valid, catchable, non-None entry ends restored to its snapshot
value; keys outside the snapshot, uncatchable signals and None entries
keep the disposition the loop started from; the mask and alarm are
untouched. -/
theorem restoreAll_spec :
    ∀ (snap : List (Nat × Handler)) (os : OSState),
      (snap.map Prod.fst).Nodup →
      ((restoreAll os snap).2
          = (snap.filter (fun p => ¬ p.2 = Handler.pyNone)).map Prod.fst)
      ∧ (∀ s v, (s, v) ∈ snap → ¬ v = Handler.pyNone → catchable s = true →
            validSig s = true → ((restoreAll os snap).1).disp s = v)
      ∧ (∀ s, ¬ s ∈ snap.map Prod.fst → ((restoreAll os snap).1).disp s = os.disp s)
      ∧ (∀ s, catchable s = false → ((restoreAll os snap).1).disp s = os.disp s)
      ∧ (∀ s v, (s, v) ∈ snap → v = Handler.pyNone → ((restoreAll os snap).1).disp s = os.disp s)
      ∧ ((restoreAll os snap).1).blocked = os.blocked
      ∧ ((restoreAll os snap).1).alarm = os.alarm := by
  intro snap
  induction snap with
  | nil =>
      intro os _
      exact ⟨rfl, by simp, fun s _ => rfl, fun s _ => rfl, by simp, rfl, rfl⟩
  | cons p rest ih =>
      intro os hnd
      obtain ⟨a, v⟩ := p
      have hnd0 : a ∉ rest.map Prod.fst ∧ (rest.map Prod.fst).Nodup := by
        rw [List.map_cons] at hnd
        exact List.nodup_cons.mp hnd
      have hnd1 : ¬ a ∈ rest.map Prod.fst := hnd0.1
      have hnd2 : (rest.map Prod.fst).Nodup := hnd0.2
      by_cases hv : v = Handler.pyNone
      · subst hv
        have hred : restoreAll os ((a, Handler.pyNone) :: rest) = restoreAll os rest := by
          simp [restoreAll]
        obtain ⟨c1, c2, c3, c4, c5, c6, c7⟩ := ih os hnd2
        refine ⟨?_, ?_, ?_, ?_, ?_, ?_, ?_⟩
        · rw [hred, c1]
          simp
        · intro s w hw hwn hcs hvs
          rcases List.mem_cons.mp hw with h | h
          · rw [Prod.mk.injEq] at h
            exact absurd h.2 hwn
          · rw [hred]
            exact c2 s w h hwn hcs hvs
        · intro s hs
          rw [hred]
          exact c3 s (fun hh => hs (by simp [hh]))
        · intro s hcs
          rw [hred]
          exact c4 s hcs
        · intro s w hw hwn
          rcases List.mem_cons.mp hw with h | h
          · rw [Prod.mk.injEq] at h
            rw [hred, h.1]
            exact c3 a hnd1
          · rw [hred]
            exact c5 s w h hwn
        · rw [hred]
          exact c6
        · rw [hred]
          exact c7
      · have hred : restoreAll os ((a, v) :: rest)
            = ((restoreAll (restoreOne os a v) rest).1,
               a :: (restoreAll (restoreOne os a v) rest).2) := by
          simp [restoreAll, hv]
        obtain ⟨c1, c2, c3, c4, c5, c6, c7⟩ := ih (restoreOne os a v) hnd2
        refine ⟨?_, ?_, ?_, ?_, ?_, ?_, ?_⟩
        · rw [hred]
          simp only [List.filter_cons]
          have : (decide ¬ v = Handler.pyNone) = true := by simp [hv]
          rw [this]
          simp [c1]
        · intro s w hw hwn hcs hvs
          rcases List.mem_cons.mp hw with h | h
          · rw [Prod.mk.injEq] at h
            obtain ⟨hsa, hwv⟩ := h
            rw [hred]
            have hns : ¬ s ∈ rest.map Prod.fst := by rw [hsa]; exact hnd1
            have hres := c3 s hns
            simp only [hres]
            rw [hsa, hwv]
            exact restoreOne_disp_eq os a v (by rw [← hsa]; exact hvs)
              (by rw [← hwv]; exact hwn) (by rw [← hsa]; exact hcs)
          · rw [hred]
            exact c2 s w h hwn hcs hvs
        · intro s hs
          have hsa : ¬ s = a := fun hh => hs (by simp [hh])
          have hst : ¬ s ∈ rest.map Prod.fst := fun hh => hs (by simp [hh])
          rw [hred]
          have hres := c3 s hst
          simp only [hres]
          exact restoreOne_disp_ne os a v s hsa
        · intro s hcs
          rw [hred]
          have hres := c4 s hcs
          simp only [hres]
          by_cases hsa : s = a
          · subst hsa
            rw [restoreOne_not_catchable os s v hcs]
          · exact restoreOne_disp_ne os a v s hsa
        · intro s w hw hwn
          rcases List.mem_cons.mp hw with h | h
          · rw [Prod.mk.injEq] at h
            exact absurd (h.2.symm.trans hwn) hv
          · have hsr : s ∈ rest.map Prod.fst := by
              exact List.mem_map.mpr ⟨(s, w), h, rfl⟩
            have hsa : ¬ s = a := fun hh => hnd1 (hh ▸ hsr)
            rw [hred]
            have hres := c5 s w h hwn
            simp only [hres]
            exact restoreOne_disp_ne os a v s hsa
        · rw [hred]
          simp only [c6]
          exact restoreOne_blocked os a v
        · rw [hred]
          simp only [c7]
          exact restoreOne_alarm os a v

theorem callable_ne_pyNone (h : Handler) (hc : callable h = true) : ¬ h = Handler.pyNone := by
  intro he
  rw [he] at hc
  simp [callable] at hc

theorem set_handler_obj_red (st : SimSigState) (l : List Nat) (h : Handler)
    (hc : callable h = true) :
    set_handler st (SigArg.list (l.map SigDesignator.sigInt)) (Reaction.obj h)
      = setLoop h st l := by
  simp [set_handler, normalize_map_sigInt, hc]

theorem set_handler_tag_red (st : SimSigState) (l : List Nat) (t : SigReaction) :
    set_handler st (SigArg.list (l.map SigDesignator.sigInt)) (Reaction.tag t)
      = setLoop
          (match t with
           | SigReaction.dflt => Handler.sigDfl
           | SigReaction.ign => Handler.sigIgn
           | SigReaction.fin => (createFinHandler st).1)
          (createFinHandler st).2 l := by
  simp [set_handler, normalize_map_sigInt]

/-- Whatever the reaction, on a batch of platform signals the state that
reaches the finally block of temp_handler has every uncatchable
disposition unchanged, and the mask and alarm unchanged. -/
theorem set_handler_finally_os (st : SimSigState) (l : List Nat) (reaction : Reaction)
    (hvalid : ∀ s, s ∈ l → validSig s = true) :
    ∀ s, catchable s = false →
      (stateOf (set_handler st (SigArg.list (l.map SigDesignator.sigInt)) reaction)).os.disp s
        = st.os.disp s := by
  intro s hcs
  cases reaction with
  | obj h =>
      by_cases hc : callable h = true
      · obtain ⟨st2, heq, _, _, h4, _⟩ :=
          setLoop_ok h (callable_ne_pyNone h hc) l st hvalid
        rw [set_handler_obj_red st l h hc, heq]
        exact h4 s hcs
      · have hc2 : callable h = false := by
          cases hcb : callable h
          · rfl
          · exact absurd hcb hc
        simp [set_handler, normalize_map_sigInt, hc2, stateOf]
  | tag t =>
      rw [set_handler_tag_red st l t]
      have hos := createFinHandler_os st
      by_cases hpn :
          (match t with
           | SigReaction.dflt => Handler.sigDfl
           | SigReaction.ign => Handler.sigIgn
           | SigReaction.fin => (createFinHandler st).1) = Handler.pyNone
      · rw [hpn]
        rcases setLoop_pyNone (createFinHandler st).2 l hvalid with hh | hh
        · rw [hh]
          simp [stateOf, hos]
        · rw [hh]
          simp [stateOf, hos]
      · obtain ⟨st2, heq, _, _, h4, _⟩ :=
          setLoop_ok _ hpn l (createFinHandler st).2 hvalid
        rw [heq]
        have := h4 s hcs
        simp [stateOf, this, hos]

/-- Reduction of the instrumented temp_handler to the restoration loop
applied to the state that reached finally. -/
theorem temp_handler_run_red (st : SimSigState) (signals : SigArg) (reaction : Reaction)
    (body : BlockBehavior) (l : List Nat)
    (hl : normalize_signals signals = Except.ok l)
    (hvalid : ∀ s, s ∈ l → validSig s = true) :
    (stateOf (temp_handler st signals reaction body)).os
        = (restoreAll
            (stateOf (set_handler st (SigArg.list (l.map SigDesignator.sigInt)) reaction)).os
            (l.dedup.map (fun s => (s, st.os.disp s)))).1
    ∧ (temp_handler_run st signals reaction body).2
        = (restoreAll
            (stateOf (set_handler st (SigArg.list (l.map SigDesignator.sigInt)) reaction)).os
            (l.dedup.map (fun s => (s, st.os.disp s)))).2 := by
  have hsnap : snapshotHandlers st.os l.dedup
      = Except.ok (l.dedup.map (fun s => (s, st.os.disp s))) :=
    snapshotHandlers_ok st.os l.dedup (fun s hs => hvalid s (List.mem_dedup.mp hs))
  cases hset : set_handler st (SigArg.list (l.map SigDesignator.sigInt)) reaction with
  | ok st1 =>
      cases body with
      | normal =>
          constructor
          · simp [temp_handler, temp_handler_run, hl, hsnap, hset, stateOf]
          · simp [temp_handler_run, hl, hsnap, hset, stateOf]
      | raises e =>
          constructor
          · simp [temp_handler, temp_handler_run, hl, hsnap, hset, stateOf]
          · simp [temp_handler_run, hl, hsnap, hset, stateOf]
  | error pr =>
      obtain ⟨e, st1⟩ := pr
      constructor
      · simp [temp_handler, temp_handler_run, hl, hsnap, hset, stateOf]
      · simp [temp_handler_run, hl, hsnap, hset, stateOf]

/-! ## Claim C2: temp_handler is a round trip -/

/-- C2 (amended): for every signal batch over platform signals, every
reaction, and every block behaviour (normal completion or a raise), when
the pre-scope disposition of each signal in the batch is Python-visible
(not the None that getsignal reports for a foreign installation), the
temp_handler scope restores the disposition of every signal of the batch
to its pre-scope value on exit, and attempts restoration of every distinct
signal of the batch exactly once (the count of each batch signal in the
list of restoration attempts is one). Restoration errors are swallowed:
the theorem also covers uncatchable signals in the batch, for which both
the install and the restore attempt fail silently. -/
theorem c2_temp_handler_round_trip (st : SimSigState) (signals : SigArg)
    (reaction : Reaction) (body : BlockBehavior) (l : List Nat)
    (hl : normalize_signals signals = Except.ok l)
    (hvalid : ∀ s, s ∈ l → validSig s = true)
    (hvis : ∀ s, s ∈ l → ¬ st.os.disp s = Handler.pyNone) :
    (∀ s, s ∈ l →
        (stateOf (temp_handler st signals reaction body)).os.disp s = st.os.disp s)
    ∧ (∀ s, s ∈ l → ((temp_handler_run st signals reaction body).2).count s = 1) := by
  obtain ⟨hred1, hred2⟩ := temp_handler_run_red st signals reaction body l hl hvalid
  have hkeys : (l.dedup.map (fun s => (s, st.os.disp s))).map Prod.fst = l.dedup := by
    rw [List.map_map]
    simp [Function.comp_def]
  have hnd : ((l.dedup.map (fun s => (s, st.os.disp s))).map Prod.fst).Nodup := by
    rw [hkeys]
    exact l.nodup_dedup
  obtain ⟨r1, r2, r3, r4, r5, _, _⟩ :=
    restoreAll_spec (l.dedup.map (fun s => (s, st.os.disp s)))
      (stateOf (set_handler st (SigArg.list (l.map SigDesignator.sigInt)) reaction)).os hnd
  constructor
  · intro s hs
    rw [hred1]
    by_cases hcs : catchable s = true
    · exact r2 s (st.os.disp s)
        (List.mem_map.mpr ⟨s, List.mem_dedup.mpr hs, rfl⟩)
        (hvis s hs) hcs (hvalid s hs)
    · have hcs2 : catchable s = false := by
        cases hcb : catchable s
        · rfl
        · exact absurd hcb hcs
      rw [r4 s hcs2]
      exact set_handler_finally_os st l reaction hvalid s hcs2
  · intro s hs
    rw [hred2, r1]
    have hfil : (l.dedup.map (fun s => (s, st.os.disp s))).filter
        (fun p => ¬ p.2 = Handler.pyNone) = l.dedup.map (fun s => (s, st.os.disp s)) := by
      apply List.filter_eq_self.mpr
      intro p hp
      obtain ⟨a, ha, hpa⟩ := List.mem_map.mp hp
      rw [← hpa]
      simpa using hvis a (List.mem_dedup.mp ha)
    rw [hfil, hkeys]
    exact List.count_eq_one_of_mem l.nodup_dedup (List.mem_dedup.mpr hs)

/-- Witness for C2 at a concrete input: batch [10, 10, 12] (with a
duplicate), the ignore reaction, a raising body, from the fresh state. -/
theorem c2_temp_handler_round_trip_witness :
    normalize_signals (SigArg.list
        [SigDesignator.sigInt 10, SigDesignator.sigInt 10, SigDesignator.sigInt 12])
      = Except.ok [10, 10, 12]
    ∧ (∀ s, s ∈ [10, 10, 12] → validSig s = true)
    ∧ (∀ s, s ∈ [10, 10, 12] → ¬ initState.os.disp s = Handler.pyNone)
    ∧ (∀ s, s ∈ [10, 10, 12] →
        (stateOf (temp_handler initState
            (SigArg.list [SigDesignator.sigInt 10, SigDesignator.sigInt 10,
              SigDesignator.sigInt 12])
            (Reaction.tag SigReaction.ign) (BlockBehavior.raises (PyErr.userError 7)))).os.disp s
          = initState.os.disp s)
    ∧ (∀ s, s ∈ [10, 10, 12] →
        ((temp_handler_run initState
            (SigArg.list [SigDesignator.sigInt 10, SigDesignator.sigInt 10,
              SigDesignator.sigInt 12])
            (Reaction.tag SigReaction.ign) (BlockBehavior.raises (PyErr.userError 7))).2).count s
          = 1) :=
  ⟨by decide, by decide, by decide,
   (c2_temp_handler_round_trip initState
      (SigArg.list [SigDesignator.sigInt 10, SigDesignator.sigInt 10,
        SigDesignator.sigInt 12])
      (Reaction.tag SigReaction.ign) (BlockBehavior.raises (PyErr.userError 7))
      [10, 10, 12] (by decide) (by decide) (by decide)).1,
   (c2_temp_handler_round_trip initState
      (SigArg.list [SigDesignator.sigInt 10, SigDesignator.sigInt 10,
        SigDesignator.sigInt 12])
      (Reaction.tag SigReaction.ign) (BlockBehavior.raises (PyErr.userError 7))
      [10, 10, 12] (by decide) (by decide) (by decide)).2⟩

/-- A process state in which SIGUSR1 (10) carries a disposition that was
installed by foreign (non-Python) code, so getsignal reports None. -/
def stForeignUsr1 : SimSigState :=
  { initState with os := { initState.os with
      disp := fun n => if n = 10 then Handler.pyNone else Handler.sigDfl } }

/-- Counterexample to C2 as stated: when the pre-scope disposition of a
signal in the batch is the unreadable None, the scope does not restore it
(the disposition stays at the temporary reaction after exit) and performs
no restoration attempt for it at all, so neither the round trip nor the
attempted-exactly-once clause holds for every signal set. -/
theorem c2_counterexample :
    stForeignUsr1.os.disp 10 = Handler.pyNone
    ∧ (stateOf (temp_handler stForeignUsr1 (SigArg.single (SigDesignator.sigInt 10))
        (Reaction.tag SigReaction.ign) BlockBehavior.normal)).os.disp 10 = Handler.sigIgn
    ∧ (temp_handler_run stForeignUsr1 (SigArg.single (SigDesignator.sigInt 10))
        (Reaction.tag SigReaction.ign) BlockBehavior.normal).2 = [] := by
  refine ⟨rfl, ?_, ?_⟩ <;> decide

/-! ## Claim C4: with_timeout arms, raises and restores -/

/-- C4 (amended): for with_timeout with a countdown of at least one second
and a Python-visible pre-scope SIGALRM disposition, there is a single
cleaned-up exit state with every disposition (in particular SIGALRM) equal
to its pre-scope value, no pending alarm, and an unchanged mask; if the
block runs strictly longer than the countdown the scope raises the
distinguished SimSigTimeoutError with that state; otherwise the scope
returns normally when the block does (so no timeout failure is raised) and
re-raises the block exception when the block raised one — the disarm and
restore cleanup happening on every one of these exit paths. -/
theorem c4_with_timeout_behavior (st : SimSigState) (seconds : Nat) (block : TimedBlock)
    (hsec : 1 ≤ seconds) (hvis : ¬ st.os.disp SIGALRM = Handler.pyNone) :
    ∃ st2,
      (∀ s, st2.os.disp s = st.os.disp s)
      ∧ st2.os.alarm = 0
      ∧ st2.os.blocked = st.os.blocked
      ∧ with_timeout st seconds block
          = (if seconds < block.duration then
               Except.error (PyErr.simSigTimeout, st2)
             else
               match block.behavior with
               | BlockBehavior.normal => Except.ok st2
               | BlockBehavior.raises e => Except.error (e, st2)) := by
  have h14 : validSig SIGALRM = true := by decide
  have hc14 : catchable SIGALRM = true := by decide
  have hta : ¬ (Handler.timeoutH seconds = Handler.pyNone) := by simp
  have hpos : 0 < seconds := hsec
  refine ⟨{ st with os :=
      { disp := fun m =>
          if m = SIGALRM then st.os.disp SIGALRM
          else if m = SIGALRM then Handler.timeoutH seconds else st.os.disp m,
        blocked := st.os.blocked, alarm := 0 } }, ?_, rfl, rfl, ?_⟩
  · intro s
    by_cases hs : s = SIGALRM
    · simp [hs]
    · simp [hs]
  · by_cases hd : seconds < block.duration
    · simp [with_timeout, getsignal, h14, sigSignal, hta, hc14, hvis, hpos, hd]
    · have hnofire : ¬ (0 < seconds ∧ seconds < block.duration) := by
        intro hh
        exact hd hh.2
      cases hb : block.behavior with
      | normal =>
          simp [with_timeout, getsignal, h14, sigSignal, hta, hc14, hvis, hnofire, hd, hb]
      | raises e =>
          simp [with_timeout, getsignal, h14, sigSignal, hta, hc14, hvis, hnofire, hd, hb]

/-- Witness for C4 at a concrete input: a one-second timeout around a
two-second block, from the fresh state: the distinguished timeout error is
raised and the state is the cleaned-up one. -/
theorem c4_with_timeout_behavior_witness :
    1 ≤ 1
    ∧ ¬ initState.os.disp SIGALRM = Handler.pyNone
    ∧ ∃ st2,
      (∀ s, st2.os.disp s = initState.os.disp s)
      ∧ st2.os.alarm = 0
      ∧ st2.os.blocked = initState.os.blocked
      ∧ with_timeout initState 1 { duration := 2, behavior := BlockBehavior.normal }
          = (if 1 < 2 then
               Except.error (PyErr.simSigTimeout, st2)
             else
               match BlockBehavior.normal with
               | BlockBehavior.normal => Except.ok st2
               | BlockBehavior.raises e => Except.error (e, st2)) :=
  ⟨by decide, by decide,
   c4_with_timeout_behavior initState 1 { duration := 2, behavior := BlockBehavior.normal }
     (by decide) (by decide)⟩

/-- A process state in which SIGALRM carries a disposition installed by
foreign code, reported as None by getsignal. -/
def stForeignAlrm : SimSigState :=
  { initState with os := { initState.os with
      disp := fun n => if n = SIGALRM then Handler.pyNone else Handler.sigDfl } }

/-- Counterexample to C4 as stated, in two parts. With a countdown of zero
the alarm call cancels instead of arming, so a block that runs longer than
the countdown raises no timeout failure at all (the scope returns
normally). And when the pre-scope SIGALRM disposition is the unreadable
None, the restore call in the finally block raises TypeError (replacing
the in-flight timeout failure) and the SIGALRM disposition is left at the
scope-installed timeout closure rather than being restored. -/
theorem c4_counterexample :
    pyErrOf (with_timeout initState 0 { duration := 5, behavior := BlockBehavior.normal })
      = none
    ∧ pyErrOf (with_timeout stForeignAlrm 1 { duration := 5, behavior := BlockBehavior.normal })
      = some PyErr.typeError
    ∧ (stateOf (with_timeout stForeignAlrm 1
        { duration := 5, behavior := BlockBehavior.normal })).os.disp SIGALRM
      = Handler.timeoutH 1 := by
  refine ⟨?_, ?_, ?_⟩ <;> decide

/-! ## Claim C3: graceful_shutdown installs the terminate handler -/

theorem set_handler_tag_red_enum (st : SimSigState) (l : List Nat) (t : SigReaction) :
    set_handler st (SigArg.list (l.map SigDesignator.sigEnum)) (Reaction.tag t)
      = setLoop
          (match t with
           | SigReaction.dflt => Handler.sigDfl
           | SigReaction.ign => Handler.sigIgn
           | SigReaction.fin => (createFinHandler st).1)
          (createFinHandler st).2 l := by
  simp [set_handler, normalize_signals, intsOf_map_sigEnum]

/-- C3: for a callable argument, graceful_shutdown succeeds and for every
signal in the terminating-by-default set minus the non-overridable SIGKILL
the installed disposition is the cached terminate handler; delivering any
such signal numbered n to that handler invokes the registered callback
exactly once and then exits the process with status exactly 128 + n. The
hfin hypothesis records the reachable-state invariant that the fin-handler
cache slot only ever holds handlers built by _create_fin_handler. -/
theorem c3_graceful_shutdown_installs_fin (st : SimSigState) (cbk : PyObj) (n : Nat)
    (hcb : cbk.callable = true)
    (hfin : ∀ h0, st.finHandler = some h0 → ∃ tg, h0 = Handler.fin tg)
    (hn : n ∈ gracefulSignals) :
    ∃ st1 h, graceful_shutdown st cbk = Except.ok st1
      ∧ st1.finHandler = some h
      ∧ (∀ s, s ∈ gracefulSignals → st1.os.disp s = h)
      ∧ runHandler st1 h n = ([cbk.id], Outcome.exited (128 + n))
      ∧ ((runHandler st1 h n).1).count cbk.id = 1 := by
  have hvalidg : ∀ s, s ∈ gracefulSignals → validSig s = true := by decide
  have hcatchg : ∀ s, s ∈ gracefulSignals → catchable s = true := by decide
  have hvn : validSig n = true := hvalidg n hn
  obtain ⟨tg, htg⟩ :
      ∃ tg, (createFinHandler { st with graceful := some cbk.id }).1 = Handler.fin tg := by
    cases hfh : st.finHandler with
    | none => exact ⟨st.finCreations, by simp [createFinHandler, hfh]⟩
    | some h0 =>
        obtain ⟨tg, htg⟩ := hfin h0 hfh
        exact ⟨tg, by simp [createFinHandler, hfh, htg]⟩
  have hne : ¬ (createFinHandler { st with graceful := some cbk.id }).1 = Handler.pyNone := by
    rw [htg]
    simp
  obtain ⟨st1, heq, h1, h2, h3, hg, hf, hc, hb, hal⟩ :=
    setLoop_ok (createFinHandler { st with graceful := some cbk.id }).1 hne
      gracefulSignals (createFinHandler { st with graceful := some cbk.id }).2 hvalidg
  have hrun : runHandler st1 (createFinHandler { st with graceful := some cbk.id }).1 n
      = ([cbk.id], Outcome.exited (128 + n)) := by
    have hg2 : st1.graceful = some cbk.id := by
      rw [hg, createFinHandler_graceful]
    rw [htg]
    simp [runHandler, hvn, hg2]
  refine ⟨st1, (createFinHandler { st with graceful := some cbk.id }).1, ?_, ?_, ?_, hrun, ?_⟩
  · rw [graceful_shutdown]
    simp only [hcb]
    rw [if_neg (by simp)]
    rw [set_handler_tag_red_enum { st with graceful := some cbk.id } gracefulSignals
      SigReaction.fin]
    exact heq
  · rw [hf, createFinHandler_caches]
  · intro s hs
    exact h1 s hs (hcatchg s hs)
  · rw [hrun]
    simp

/-- Witness for C3 at a concrete input: a callable callback with identity 7
from the fresh state, delivering SIGTERM (15). -/
theorem c3_graceful_shutdown_installs_fin_witness :
    (⟨7, true⟩ : PyObj).callable = true
    ∧ 15 ∈ gracefulSignals
    ∧ ∃ st1 h, graceful_shutdown initState ⟨7, true⟩ = Except.ok st1
      ∧ st1.finHandler = some h
      ∧ (∀ s, s ∈ gracefulSignals → st1.os.disp s = h)
      ∧ runHandler st1 h 15 = ([7], Outcome.exited (128 + 15))
      ∧ ((runHandler st1 h 15).1).count 7 = 1 :=
  ⟨rfl, by decide,
   c3_graceful_shutdown_installs_fin initState ⟨7, true⟩ 15 rfl
     (fun h0 hh => by simp [initState] at hh) (by decide)⟩

/-! ## Claim C5: chain_handler composition order -/

theorem chain_handler_red (st : SimSigState) (sigN cbId : Nat) (order : String)
    (hord : order = ("before") ∨ order = ("after")) (hv : validSig sigN = true) :
    chain_handler st (SigDesignator.sigInt sigN) cbId order
      = setLoop (Handler.chained order cbId (st.os.disp sigN)) st [sigN] := by
  rcases hord with h | h <;>
    simp [chain_handler, h, get_signal_setting, pyIntOf, getsignal, hv, set_handler,
      normalize_signals, intsOf, callable]

/-- Installing a chain on a catchable platform signal: the composite that
captures the current handler ends up installed, everything else untouched. -/
theorem chain_install (st : SimSigState) (sigN cbId : Nat) (order : String)
    (hord : order = ("before") ∨ order = ("after"))
    (hv : validSig sigN = true) (hc : catchable sigN = true) :
    ∃ st1, chain_handler st (SigDesignator.sigInt sigN) cbId order = Except.ok st1
      ∧ st1.os.disp sigN = Handler.chained order cbId (st.os.disp sigN)
      ∧ (∀ s, ¬ s = sigN → st1.os.disp s = st.os.disp s)
      ∧ st1.graceful = st.graceful ∧ st1.finHandler = st.finHandler := by
  rw [chain_handler_red st sigN cbId order hord hv]
  obtain ⟨st1, heq, h1, h2, _, hg, hf, _⟩ :=
    setLoop_ok (Handler.chained order cbId (st.os.disp sigN)) (by simp) [sigN] st
      (by simp [hv])
  exact ⟨st1, heq, h1 sigN (by simp) hc, fun s hs => h2 s (by simp [hs]), hg, hf⟩

/-- C5: chain_handler captures the handler installed at call time and
installs a composite; on delivery, order before runs the new callback
strictly first and order after runs the captured original strictly first;
the captured original is forwarded only when it is callable (sentinel
dispositions are never invoked); and chaining twice nests so that every
previously chained callback still runs on delivery. -/
theorem c5_chain_handler_order (st : SimSigState) (sigN c0 cb1 cb2 n : Nat) (orig : Handler)
    (hv : validSig sigN = true) (hc : catchable sigN = true) :
    (∃ st1, chain_handler st (SigDesignator.sigInt sigN) cb1 ("before") = Except.ok st1
       ∧ st1.os.disp sigN = Handler.chained ("before") cb1 (st.os.disp sigN))
    ∧ (runHandler st (Handler.chained ("before") cb1 orig) n
        = (cb1 :: (if callable orig then (runHandler st orig n).1 else []),
           if callable orig then (runHandler st orig n).2 else Outcome.normal))
    ∧ (callable orig = true → (runHandler st orig n).2 = Outcome.normal →
        runHandler st (Handler.chained ("after") cb1 orig) n
          = ((runHandler st orig n).1 ++ [cb1], Outcome.normal))
    ∧ (callable orig = false →
        runHandler st (Handler.chained ("before") cb1 orig) n = ([cb1], Outcome.normal)
        ∧ runHandler st (Handler.chained ("after") cb1 orig) n = ([cb1], Outcome.normal))
    ∧ (st.os.disp sigN = Handler.cb c0 →
        ∃ st1 st2,
          chain_handler st (SigDesignator.sigInt sigN) cb1 ("before") = Except.ok st1
          ∧ chain_handler st1 (SigDesignator.sigInt sigN) cb2 ("after") = Except.ok st2
          ∧ runHandler st2 (st2.os.disp sigN) n = ([cb1, c0, cb2], Outcome.normal)) := by
  refine ⟨?_, ?_, ?_, ?_, ?_⟩
  · obtain ⟨st1, heq, hd, _⟩ :=
      chain_install st sigN cb1 ("before") (Or.inl rfl) hv hc
    exact ⟨st1, heq, hd⟩
  · by_cases hco : callable orig = true
    · cases hro : runHandler st orig n with
      | mk t o => simp [runHandler, hco, hro]
    · have hco2 : callable orig = false := by
        cases hcb : callable orig
        · rfl
        · exact absurd hcb hco
      simp [runHandler, hco2]
  · intro hco ho
    cases hro : runHandler st orig n with
    | mk t o =>
        rw [hro] at ho
        simp only at ho
        simp [runHandler, hco, hro, ho]
  · intro hco
    constructor <;> simp [runHandler, hco]
  · intro hd0
    obtain ⟨st1, heq1, hd1, _, _⟩ :=
      chain_install st sigN cb1 ("before") (Or.inl rfl) hv hc
    obtain ⟨st2, heq2, hd2, _, _⟩ :=
      chain_install st1 sigN cb2 ("after") (Or.inr rfl) hv hc
    refine ⟨st1, st2, heq1, heq2, ?_⟩
    rw [hd2, hd1, hd0]
    simp [runHandler, callable]

/-- Witness for C5 at a concrete input: a state with a user callback 100
installed for SIGTERM (15), chaining callback 1 before and then callback 2
after; delivery runs 1, then 100, then 2. -/
def stChain : SimSigState :=
  { initState with os := { initState.os with
      disp := fun m => if m = 15 then Handler.cb 100 else Handler.sigDfl } }

theorem c5_chain_handler_order_witness :
    validSig 15 = true ∧ catchable 15 = true ∧ stChain.os.disp 15 = Handler.cb 100
    ∧ ∃ st1 st2,
        chain_handler stChain (SigDesignator.sigInt 15) 1 ("before") = Except.ok st1
        ∧ chain_handler st1 (SigDesignator.sigInt 15) 2 ("after") = Except.ok st2
        ∧ runHandler st2 (st2.os.disp 15) 15 = ([1, 100, 2], Outcome.normal) :=
  ⟨by decide, by decide, rfl,
   (c5_chain_handler_order stChain 15 100 1 2 15 Handler.sigIgn
      (by decide) (by decide)).2.2.2.2 rfl⟩

/-! ## Claim C8: the cached terminate handler -/

/-- C8 (amended): per instance the terminate handler is created at most
once, but it is constructed on the first installation that resolves a
tagged reaction of any kind — set_handler builds its reaction map eagerly,
so a Default or Ignore install also constructs and caches it — not only on
the first use of the Terminate reaction. Once cached: _create_fin_handler
returns the identical object without touching the state, any tagged
install keeps the cache and the creation count unchanged, a Terminate
install installs exactly the cached object, and from an empty cache a
single creation fills the cache with the returned handler. -/
theorem c8_fin_handler_cached_once (st : SimSigState) (h : Handler) (a : SigArg)
    (t : SigReaction) (sigN : Nat)
    (hs : st.finHandler = some h) (hne : ¬ h = Handler.pyNone)
    (hv : validSig sigN = true) (hc : catchable sigN = true) :
    createFinHandler st = (h, st)
    ∧ (stateOf (set_handler st a (Reaction.tag t))).finHandler = some h
    ∧ (stateOf (set_handler st a (Reaction.tag t))).finCreations = st.finCreations
    ∧ (∃ st1, set_handler st (SigArg.single (SigDesignator.sigInt sigN))
          (Reaction.tag SigReaction.fin) = Except.ok st1
        ∧ st1.os.disp sigN = h ∧ st1.finHandler = some h
        ∧ st1.finCreations = st.finCreations)
    ∧ (∀ st0 : SimSigState, st0.finHandler = none →
        (createFinHandler st0).2.finHandler = some (createFinHandler st0).1
        ∧ (createFinHandler st0).2.finCreations = st0.finCreations + 1) := by
  have hcf : createFinHandler st = (h, st) := createFinHandler_some st h hs
  refine ⟨hcf, ?_, ?_, ?_, ?_⟩
  · cases hnorm : normalize_signals a with
    | error e => simp [set_handler, hnorm, stateOf, hs]
    | ok l =>
        have : set_handler st a (Reaction.tag t)
            = setLoop
                (match t with
                 | SigReaction.dflt => Handler.sigDfl
                 | SigReaction.ign => Handler.sigIgn
                 | SigReaction.fin => h)
                st l := by
          simp [set_handler, hnorm, hcf]
        rw [this, (setLoop_preserves _ l st).1, hs]
  · cases hnorm : normalize_signals a with
    | error e => simp [set_handler, hnorm, stateOf]
    | ok l =>
        have : set_handler st a (Reaction.tag t)
            = setLoop
                (match t with
                 | SigReaction.dflt => Handler.sigDfl
                 | SigReaction.ign => Handler.sigIgn
                 | SigReaction.fin => h)
                st l := by
          simp [set_handler, hnorm, hcf]
        rw [this, (setLoop_preserves _ l st).2.1]
  · have hred : set_handler st (SigArg.single (SigDesignator.sigInt sigN))
        (Reaction.tag SigReaction.fin) = setLoop h st [sigN] := by
      simp [set_handler, normalize_signals, pyIntOf, hcf]
    obtain ⟨st1, heq, h1, _, _, _, hf, hcr, _⟩ :=
      setLoop_ok h hne [sigN] st (by simp [hv])
    exact ⟨st1, by rw [hred, heq], h1 sigN (by simp) hc, by rw [hf, hs], hcr⟩
  · intro st0 h0
    exact ⟨createFinHandler_caches st0, (createFinHandler_fresh st0 h0).2⟩

/-- Witness for C8 at a concrete input: a state whose cache already holds
the handler created by a first install, SIGTERM (15) as the target. -/
def stCached : SimSigState :=
  { initState with finHandler := some (Handler.fin 0), finCreations := 1 }

theorem c8_fin_handler_cached_once_witness :
    stCached.finHandler = some (Handler.fin 0)
    ∧ ¬ (Handler.fin 0) = Handler.pyNone
    ∧ validSig 15 = true ∧ catchable 15 = true
    ∧ (∃ st1, set_handler stCached (SigArg.single (SigDesignator.sigInt 15))
          (Reaction.tag SigReaction.fin) = Except.ok st1
        ∧ st1.os.disp 15 = Handler.fin 0 ∧ st1.finHandler = some (Handler.fin 0)
        ∧ st1.finCreations = stCached.finCreations) :=
  ⟨rfl, by decide, by decide, by decide,
   (c8_fin_handler_cached_once stCached (Handler.fin 0)
      (SigArg.single (SigDesignator.sigInt 15)) SigReaction.ign 15 rfl
      (by decide) (by decide) (by decide)).2.2.2.1⟩

/-- Counterexample to C8 as stated: from a fresh instance, installing the
Ignore reaction — Terminate is never used — already runs the creation
branch once and fills the cache, so the terminate handler is not created
lazily on the first use of the Terminate reaction. -/
theorem c8_counterexample :
    initState.finCreations = 0
    ∧ initState.finHandler = none
    ∧ (stateOf (set_handler initState (SigArg.single (SigDesignator.sigInt 15))
        (Reaction.tag SigReaction.ign))).finCreations = 1
    ∧ (stateOf (set_handler initState (SigArg.single (SigDesignator.sigInt 15))
        (Reaction.tag SigReaction.ign))).finHandler = some (Handler.fin 0) := by
  refine ⟨rfl, rfl, ?_, ?_⟩ <;> decide

/-! ## Claim C9: chain_handler rejects a bad order up front -/

/-- C9: for every order value other than the exact strings before and
after, chain_handler raises ValueError and returns the state unchanged;
the result is the same for every starting state and every signal
designator (including invalid ones), which shows the rejection happens
before the current handler is read and before anything is installed. -/
theorem c9_chain_rejects_bad_order (st : SimSigState) (sig : SigDesignator) (cbId : Nat)
    (order : String) (h1 : ¬ order = ("before")) (h2 : ¬ order = ("after")) :
    chain_handler st sig cbId order = Except.error (PyErr.valueError, st) := by
  rw [chain_handler, if_pos]
  intro hor
  rcases hor with h | h
  · exact h1 h
  · exact h2 h

/-- Witness for C9 at a concrete input: the order string soon, an invalid
signal designator, the fresh state; the call still raises ValueError with
the state untouched. -/
theorem c9_chain_rejects_bad_order_witness :
    ¬ ("soon") = ("before") ∧ ¬ ("soon") = ("after")
    ∧ chain_handler initState (SigDesignator.sigInt 999) 3 ("soon")
        = Except.error (PyErr.valueError, initState) :=
  ⟨by decide, by decide,
   c9_chain_rejects_bad_order initState (SigDesignator.sigInt 999) 3 ("soon")
     (by decide) (by decide)⟩

/-! ## Claim C10: graceful_shutdown rejects a non-callable atomically -/

/-- C10: for every non-callable argument graceful_shutdown raises
TypeError and returns the state unchanged: the stored shutdown callback is
not replaced and no disposition is installed. -/
theorem c10_graceful_shutdown_type_error (st : SimSigState) (cbk : PyObj)
    (h : cbk.callable = false) :
    graceful_shutdown st cbk = Except.error (PyErr.typeError, st) := by
  simp [graceful_shutdown, h]

/-- Witness for C10 at a concrete input: a non-callable object from the
fresh state. -/
theorem c10_graceful_shutdown_type_error_witness :
    (⟨0, false⟩ : PyObj).callable = false
    ∧ graceful_shutdown initState ⟨0, false⟩ = Except.error (PyErr.typeError, initState) :=
  ⟨rfl, c10_graceful_shutdown_type_error initState ⟨0, false⟩ rfl⟩

/-! ## Claim C1: nested block_signals with overlapping sets -/

/-- C1 (code behaviour at the failing input): with the outer scope of
with_blocked([SIGUSR2, SIGTERM]) entered (signals 12 and 15 blocked, and
12 blocked inside the inner scope as well), running the inner
with_blocked([SIGUSR1, SIGUSR2]) scope to completion executes
pthread_sigmask(SIG_UNBLOCK, [10, 12]) on exit and thereby unblocks
SIGUSR2 (12) even though the outer scope blocked it — the exit removes the
whole inner list from the mask instead of only the signals the inner scope
added. SIGTERM (15) stays blocked only because the inner list does not
mention it. -/
theorem c1_inner_exit_unblocks_outer_signal :
    (sigmaskBlock initState.os [12, 15]).blocked 12 = true
    ∧ (sigmaskBlock (sigmaskBlock initState.os [12, 15]) [10, 12]).blocked 12 = true
    ∧ (stateOf (block_signals { initState with os := sigmaskBlock initState.os [12, 15] }
        (SigArg.list [SigDesignator.sigInt 10, SigDesignator.sigInt 12])
        Except.ok)).os.blocked 12 = false
    ∧ (stateOf (block_signals { initState with os := sigmaskBlock initState.os [12, 15] }
        (SigArg.list [SigDesignator.sigInt 10, SigDesignator.sigInt 12])
        Except.ok)).os.blocked 15 = true
    ∧ (stateOf (block_signals { initState with os := sigmaskBlock initState.os [12, 15] }
        (SigArg.list [SigDesignator.sigInt 10, SigDesignator.sigInt 12])
        Except.ok)).os.blocked 10 = false := by
  refine ⟨rfl, rfl, ?_, ?_, ?_⟩ <;> decide

/-! ## Claim C6: signal designators -/

/-- C6 (amended): every operation taking a signal designator accepts it as
a Signals enum member or a platform integer and normalizes it internally
with int() to the integer value before use, so an enum member behaves
identically to the corresponding plain number; a plain symbolic-name
string does not survive the int() conversion and raises ValueError. -/
theorem c6_designator_normalization (n : Nat) (st : SimSigState) (r : Reaction)
    (name : String) (hname : strToNat? name = none) :
    normalize_signals (SigArg.single (SigDesignator.sigInt n)) = Except.ok [n]
    ∧ normalize_signals (SigArg.single (SigDesignator.sigEnum n)) = Except.ok [n]
    ∧ set_handler st (SigArg.single (SigDesignator.sigEnum n)) r
        = set_handler st (SigArg.single (SigDesignator.sigInt n)) r
    ∧ pyIntOf (SigDesignator.sigStr name) = Except.error PyErr.valueError
    ∧ normalize_signals (SigArg.single (SigDesignator.sigStr name))
        = Except.error PyErr.valueError := by
  refine ⟨rfl, rfl, ?_, ?_, ?_⟩
  · simp [set_handler, normalize_signals, pyIntOf]
  · simp [pyIntOf, hname]
  · simp [normalize_signals, pyIntOf, hname]

/-- Witness for C6 at a concrete input: the name SIGTERM is not a numeral,
so the string form raises ValueError, while 15 passed as an enum member or
as an integer normalizes to the same batch. -/
theorem c6_designator_normalization_witness :
    strToNat? ("SIGTERM") = none
    ∧ normalize_signals (SigArg.single (SigDesignator.sigInt 15)) = Except.ok [15]
    ∧ normalize_signals (SigArg.single (SigDesignator.sigEnum 15)) = Except.ok [15]
    ∧ set_handler initState (SigArg.single (SigDesignator.sigEnum 15))
        (Reaction.tag SigReaction.ign)
      = set_handler initState (SigArg.single (SigDesignator.sigInt 15))
        (Reaction.tag SigReaction.ign)
    ∧ pyIntOf (SigDesignator.sigStr ("SIGTERM")) = Except.error PyErr.valueError
    ∧ normalize_signals (SigArg.single (SigDesignator.sigStr ("SIGTERM")))
        = Except.error PyErr.valueError := by
  have h := c6_designator_normalization 15 initState (Reaction.tag SigReaction.ign)
    ("SIGTERM") (by decide)
  exact ⟨by decide, h.1, h.2.1, h.2.2.1, h.2.2.2.1, h.2.2.2.2⟩

/-- Counterexample to C6 as stated: passing the symbolic name SIGTERM as a
string to set_handler does not behave like passing the number 15 — the
int() conversion inside _normalize_signals raises ValueError and the
operation rejects the string form outright. -/
theorem c6_counterexample :
    pyErrOf (set_handler initState (SigArg.single (SigDesignator.sigStr ("SIGTERM")))
        (Reaction.tag SigReaction.ign)) = some PyErr.valueError
    ∧ pyErrOf (set_handler initState (SigArg.single (SigDesignator.sigInt 15))
        (Reaction.tag SigReaction.ign)) = none := by
  refine ⟨?_, ?_⟩ <;> decide

/-! ## Claim C7: per-signal failure handling in a batch set_handler -/

/-- C7 (code behaviour at the failing input): a batch containing the
invalid signal number 999 followed by SIGTERM (15) makes set_handler raise
ValueError — the name lookup Signals(sig).name sits outside the per-signal
try block — and SIGTERM is never installed, so one bad signal does abort
the rest of the batch. By contrast a batch containing the valid but
uncatchable SIGKILL (9) followed by SIGTERM has its per-signal OSError
caught: the call returns normally, SIGTERM is installed and SIGKILL keeps
its previous disposition. -/
theorem c7_invalid_signal_aborts_batch :
    pyErrOf (set_handler initState
        (SigArg.list [SigDesignator.sigInt 999, SigDesignator.sigInt 15])
        (Reaction.tag SigReaction.ign)) = some PyErr.valueError
    ∧ (stateOf (set_handler initState
        (SigArg.list [SigDesignator.sigInt 999, SigDesignator.sigInt 15])
        (Reaction.tag SigReaction.ign))).os.disp 15 = Handler.sigDfl
    ∧ pyErrOf (set_handler initState
        (SigArg.list [SigDesignator.sigInt 9, SigDesignator.sigInt 15])
        (Reaction.tag SigReaction.ign)) = none
    ∧ (stateOf (set_handler initState
        (SigArg.list [SigDesignator.sigInt 9, SigDesignator.sigInt 15])
        (Reaction.tag SigReaction.ign))).os.disp 15 = Handler.sigIgn
    ∧ (stateOf (set_handler initState
        (SigArg.list [SigDesignator.sigInt 9, SigDesignator.sigInt 15])
        (Reaction.tag SigReaction.ign))).os.disp 9 = Handler.sigDfl := by
  refine ⟨?_, ?_, ?_, ?_, ?_⟩ <;> decide
